import Mathlib

/-!
Verification development for the Event Intelligence Data Warehouse
ingestion-and-orchestration pipeline.

The definitions below are a shallow embedding of the pipeline code:

* the Ticketmaster event normalizer and paginated API ingestion loop of
  ingestion/api_ingestor.py (TicketmasterIngestor.parse_event,
  TicketmasterIngestor.load_to_raw, TicketmasterIngestor.run, and the
  tenacity retry decorator on fetch_events);
* the file-based ingestor of csv_ingestor.py (CsvIngestor.run);
* the stage sequencing and the summary reporting of scripts/run_pipeline.py
  (main and print_pipeline_summary).

External effects are made explicit: the database is a value threaded through
the functions, the remote API and the file system are oracles passed as
arguments, and raised Python exceptions become Except errors.
-/

/- ── Source-native API records (Ticketmaster event JSON) ──────────────── -/

/-- A JSON sub-object carrying only a name, e.g. venue city or country. -/
structure TMNamed where
  name : Option String
deriving DecidableEq

/-- The location sub-object of a venue; coordinates arrive as JSON strings. -/
structure TMLocation where
  latitude : Option String
  longitude : Option String
deriving DecidableEq

/-- One venue object inside the event's embedded venue list. -/
structure TMVenue where
  name : Option String
  city : Option TMNamed
  country : Option TMNamed
  location : Option TMLocation
deriving DecidableEq

/-- One classification object: segment and genre sub-objects. -/
structure TMClassification where
  segment : Option TMNamed
  genre : Option TMNamed
deriving DecidableEq

/-- One price range object; numeric values are modelled by their string
rendering, which is all the normalizer keeps of them. -/
structure TMPriceRange where
  min : Option String
  max : Option String
  currency : Option String
deriving DecidableEq

/-- The dates.start sub-object. -/
structure TMStart where
  localDate : Option String
  localTime : Option String
deriving DecidableEq

/-- The dates.status sub-object. -/
structure TMStatusInfo where
  code : Option String
deriving DecidableEq

/-- The dates sub-object of an event. -/
structure TMDates where
  start : Option TMStart
  status : Option TMStatusInfo
deriving DecidableEq

/-- The per-event _embedded sub-object, holding the venue list. -/
structure TMEventEmbedded where
  venues : Option (List TMVenue)
deriving DecidableEq

/-- One source-native Ticketmaster event record.  A field holding none
models an absent JSON key. -/
structure TMEvent where
  id : Option String
  name : Option String
  url : Option String
  embedded : Option TMEventEmbedded
  classifications : Option (List TMClassification)
  priceRanges : Option (List TMPriceRange)
  dates : Option TMDates
deriving DecidableEq

/- ── Canonical staging rows (raw.events) ──────────────────────────────── -/

/-- One staging row of raw.events, as built by both ingestors.  All stored
cell values are modelled as optional strings.  The raw payload of an API row
is modelled as the original record itself: json.dumps is injective on these
records and no property depends on the serialized text. -/
structure StagingRow where
  source : String
  raw_event_id : Option String
  raw_payload : Option TMEvent
  event_name : Option String
  event_date : Option String
  event_time : Option String
  venue_name : Option String
  venue_city : Option String
  venue_country : Option String
  venue_lat : Option String
  venue_lon : Option String
  category : Option String
  subcategory : Option String
  price_min : Option String
  price_max : Option String
  currency : Option String
  url : Option String
  status : Option String
deriving DecidableEq

/- ── Row normalizer for the API source (parse_event) ──────────────────── -/

/-- `venues[0] if venues else {}` applied to `d.get(key, [{}])`: an absent
key defaults to a one-element list holding an empty object, an empty list
falls back to the empty object, otherwise the first element is taken. -/
def firstOrEmpty {α : Type} (empty : α) : Option (List α) → α
  | none => empty
  | some [] => empty
  | some (x :: _) => x

/-- The empty venue object used by the defensive lookups. -/
def emptyVenue : TMVenue := ⟨none, none, none, none⟩

/-- The empty classification object used by the defensive lookups. -/
def emptyClassification : TMClassification := ⟨none, none⟩

/-- The empty price range object used by the defensive lookups. -/
def emptyPriceRange : TMPriceRange := ⟨none, none, none⟩

/-- TicketmasterIngestor.parse_event: flatten one Ticketmaster event record
into a staging row, drilling into nested sub-objects with empty-object
defaults, so every absent field degrades to a null.  It is a total
function: no input makes it fail. -/
def parse_event (event : TMEvent) : StagingRow :=
  let embedded := event.embedded.getD ⟨none⟩
  let venue := firstOrEmpty emptyVenue embedded.venues
  let classification := firstOrEmpty emptyClassification event.classifications
  let price := firstOrEmpty emptyPriceRange event.priceRanges
  let dates := (event.dates.getD ⟨none, none⟩).start.getD ⟨none, none⟩
  let location := venue.location.getD ⟨none, none⟩
  { source := "ticketmaster"
    raw_event_id := event.id
    raw_payload := some event
    event_name := event.name
    event_date := dates.localDate
    event_time := dates.localTime
    venue_name := venue.name
    venue_city := (venue.city.getD ⟨none⟩).name
    venue_country := (venue.country.getD ⟨none⟩).name
    venue_lat := location.latitude
    venue_lon := location.longitude
    category := (classification.segment.getD ⟨none⟩).name
    subcategory := (classification.genre.getD ⟨none⟩).name
    price_min := some (price.min.getD "")
    price_max := some (price.max.getD "")
    currency := price.currency
    url := event.url
    status := ((event.dates.getD ⟨none, none⟩).status.getD ⟨none⟩).code }

/- ── Row normalizer for the CSV source (CsvIngestor.run, row loop) ─────── -/

/-- One CSV row after pandas parsing and the NaN-to-None conversion: an
association list from column name to cell, where a cell either holds a
string value or is null. -/
abbrev CsvRow := List (String × Option String)

/-- `row.get(col)`: none when the column is absent, and the cell's null when
the cell is null. -/
def rowGet (row : CsvRow) (col : String) : Option String :=
  match List.lookup col row with
  | none => none
  | some cell => cell

/-- `str(row.get(col, ""))`: an absent column defaults to the empty string,
a null cell renders as the literal string None, and a value passes
through. -/
def getStrField (row : CsvRow) (col : String) : String :=
  match List.lookup col row with
  | none => ""
  | some none => "None"
  | some (some s) => s

/-- The row dictionary built by CsvIngestor.run for one input CSV row.
There is no per-row validation: every input row yields a staging row. -/
def csvBuildRow (row : CsvRow) : StagingRow :=
  { source := "csv"
    raw_event_id := some (getStrField row "event_id")
    raw_payload := none
    event_name := rowGet row "event_name"
    event_date := some (getStrField row "event_date")
    event_time := some (getStrField row "event_time")
    venue_name := rowGet row "venue_name"
    venue_city := rowGet row "venue_city"
    venue_country := rowGet row "venue_country"
    venue_lat := rowGet row "venue_lat"
    venue_lon := rowGet row "venue_lon"
    category := rowGet row "category"
    subcategory := rowGet row "subcategory"
    price_min := some (getStrField row "price_min")
    price_max := some (getStrField row "price_max")
    currency := rowGet row "currency"
    url := rowGet row "url"
    status := rowGet row "status"
  }

/- ── Staging store ────────────────────────────────────────────────────── -/

/-- The canonical id pair of a staging row: (source, source-native id). -/
def rowKey (r : StagingRow) : String × Option String :=
  (r.source, r.raw_event_id)

/-- Whether some stored row already carries the canonical id pair of r. -/
def keyPresent (store : List StagingRow) (r : StagingRow) : Bool :=
  store.any fun t => decide (rowKey t = rowKey r)

/-- Modelled from the spec: the staging table and its conflict policy live
in the database schema, which is not part of the source tree; the spec
describes a staging table keyed by (source, source-native id) with
insert-or-skip-on-conflict semantics, matching the ON CONFLICT DO NOTHING
insert both ingestors issue.  A row whose canonical id pair is already
present is silently skipped, otherwise it is appended. -/
def insertOrSkip (store : List StagingRow) (r : StagingRow) : List StagingRow :=
  if keyPresent store r then store else store ++ [r]

/-- One bulk upsert batch (psycopg2 execute_batch of the insert statement):
the rows are attempted in order against the store. -/
def bulkInsert (store : List StagingRow) (rows : List StagingRow) : List StagingRow :=
  rows.foldl insertOrSkip store

/-- Each canonical id pair occurs in at most one staging row. -/
def NoDupKeys (store : List StagingRow) : Prop :=
  (store.map rowKey).Nodup

instance : DecidablePred NoDupKeys :=
  fun store => List.nodupDecidable (store.map rowKey)

/- ── Run records (raw.ingestion_log) and the database state ───────────── -/

/-- One row of raw.ingestion_log.  Timestamps are abstract instants. -/
structure LogRecord where
  run_id : String
  source : String
  records_fetched : Option Nat
  records_loaded : Option Nat
  status : String
  error_message : Option String
  finished_at : Option Nat
deriving DecidableEq

/-- The database state visible to the ingestors: the staging table and the
run-log table. -/
structure DB where
  store : List StagingRow
  log : List LogRecord
deriving DecidableEq

/-- `UPDATE raw.ingestion_log SET ... WHERE run_id = %s`. -/
def updateLog (log : List LogRecord) (runId : String) (f : LogRecord → LogRecord) :
    List LogRecord :=
  log.map fun rec => if rec.run_id = runId then f rec else rec

/- ── File-based ingestor (CsvIngestor.run) ────────────────────────────── -/

/-- The run-log row CsvIngestor.run inserts after a successful load. -/
def csvSuccessLog (runId : String) (n : Nat) (now : Nat) : LogRecord :=
  { run_id := runId
    source := "csv"
    records_fetched := some n
    records_loaded := some n
    status := "success"
    error_message := none
    finished_at := some now }

/-- CsvIngestor.run.  The file read (pd.read_csv plus the NaN conversion)
is an oracle: either the parsed rows or the raised read error.  The method
wraps nothing in try/except, so a read error propagates as is, before any
database work; on success every row is built unconditionally, bulk-upserted,
and exactly one success run-log row is written, reporting the input row
count as both fetched and loaded, which is also the returned value. -/
def csvRun (readResult : Except String (List CsvRow)) (runId : String) (now : Nat)
    (db : DB) : Except (String × DB) (Nat × DB) :=
  match readResult with
  | .error e => .error (e, db)
  | .ok rs =>
    let rows := rs.map csvBuildRow
    .ok (rows.length,
      { store := bulkInsert db.store rows
        log := db.log ++ [csvSuccessLog runId rows.length now] })

/- ── API responses and the API-based ingestor ─────────────────────────── -/

/-- The _embedded sub-object of one API response page. -/
structure RespEmbedded where
  events : Option (List TMEvent)
deriving DecidableEq

/-- The pagination metadata sub-object of one API response page. -/
structure PageInfo where
  totalPages : Option Int
deriving DecidableEq

/-- One page of the paginated events endpoint. -/
structure ApiResponse where
  embedded : Option RespEmbedded
  page : Option PageInfo
deriving DecidableEq

/-- `data.get("_embedded", {}).get("events", [])`. -/
def pageEvents (data : ApiResponse) : List TMEvent :=
  (data.embedded.getD ⟨none⟩).events.getD []

/-- `data.get("page", {}).get("totalPages", 1)`. -/
def pageTotalPages (data : ApiResponse) : Int :=
  ((data.page.getD ⟨none⟩).totalPages.getD 1)

/-- The exceptions that can cross the ingestor boundary.  The retryError
constructor is the retry framework's exhaustion error, wrapping the message
of the last failed attempt.  The sourceUnavailable constructor is modelled
from the spec: the spec's error taxonomy names a SourceUnavailableError for
exhausted retries, but no such class exists anywhere in the source tree; it
is declared here only so that statements about it can be written down. -/
inductive PyErr where
  | retryError (lastMsg : String)
  | sourceUnavailable (msg : String)
deriving DecidableEq

/-- `str(e)` for the exceptions above, as stored into error_message. -/
def pyErrStr : PyErr → String
  | .retryError m => "RetryError: " ++ m
  | .sourceUnavailable m => "SourceUnavailableError: " ++ m

/-- The events list of a fetch outcome; a raised fetch has no events. -/
def eventsOf (res : Except PyErr ApiResponse) : List TMEvent :=
  match res with
  | .error _ => []
  | .ok data => pageEvents data

/-- Whether the ingestion loop, after handling this page, requests the next
one: the fetch must have succeeded, the page must hold at least one event,
and the page index must be below the server-reported last page. -/
def continuesAfter (res : Except PyErr ApiResponse) (page : Nat) : Bool :=
  match res with
  | .error _ => false
  | .ok data =>
    !(pageEvents data).isEmpty && decide ((page : Int) < pageTotalPages data - 1)

/-- The run-log row TicketmasterIngestor.run inserts before fetching. -/
def startLog (runId : String) : LogRecord :=
  { run_id := runId
    source := "ticketmaster"
    records_fetched := none
    records_loaded := none
    status := "running"
    error_message := none
    finished_at := none }

/-- The page loop of TicketmasterIngestor.run.  fetch is the per-page fetch
after its retry wrapper; page is the next index, remaining the pages still
allowed by max_pages, total the loaded count so far.  Each successful page
is parsed and bulk-upserted (committed) before the next fetch.  The result
pairs the list of requested page indices with either the final count and
store, or the raised error together with the store as committed so far. -/
def tmPages (fetch : Nat → Except PyErr ApiResponse) (page remaining total : Nat)
    (store : List StagingRow) :
    List Nat × Except (PyErr × List StagingRow) (Nat × List StagingRow) :=
  match remaining with
  | 0 => ([], .ok (total, store))
  | r + 1 =>
    match fetch page with
    | .error e => ([page], .error (e, store))
    | .ok data =>
      let events := pageEvents data
      if events.isEmpty then ([page], .ok (total, store))
      else
        let rows := events.map parse_event
        let store2 := bulkInsert store rows
        let total2 := total + rows.length
        if (page : Int) ≥ pageTotalPages data - 1 then ([page], .ok (total2, store2))
        else
          let rest := tmPages fetch (page + 1) r total2 store2
          (page :: rest.1, rest.2)

/-- TicketmasterIngestor.run: insert the running run-log row, execute the
page loop, then finalize the same run-log row: on success with the
cumulative loaded count, on any raised error with status failed, the error
text and a finish timestamp, after which the error is re-raised (the
Except error result).  The requested page indices are returned alongside. -/
def tmRun (fetch : Nat → Except PyErr ApiResponse) (maxPages : Nat) (runId : String)
    (now : Nat) (db : DB) : List Nat × Except (PyErr × DB) (Nat × DB) :=
  let log0 := db.log ++ [startLog runId]
  let res := tmPages fetch 0 maxPages 0 db.store
  match res.2 with
  | .ok (total, store2) =>
    (res.1, .ok (total,
      { store := store2
        log := updateLog log0 runId fun rec =>
          { rec with finished_at := some now, records_loaded := some total,
                     status := "success" } }))
  | .error (e, store2) =>
    (res.1, .error (e,
      { store := store2
        log := updateLog log0 runId fun rec =>
          { rec with finished_at := some now, status := "failed",
                     error_message := some (pyErrStr e) } }))

/- ── The tenacity retry wrapper on fetch_events ───────────────────────── -/

/-- wait_exponential(min=2, max=10) with the default multiplier 1 and
exponent base 2: the wait after failed attempt n is
max(2, min(2 ^ (n - 1), 10)). -/
def waitExp (attemptNumber : Nat) : Nat :=
  Nat.max 2 (Nat.min (2 ^ (attemptNumber - 1)) 10)

/-- The retry driver: attempt gives each 1-indexed attempt's outcome, n is
the current attempt number, fuel the attempts still allowed by
stop_after_attempt.  Returns the waits slept between attempts and either
the first success or, once the stop condition is hit, the retry framework's
exhaustion error wrapping the last attempt's failure.  The fuel-0 case is
unreachable from fetch_events, which starts with positive fuel. -/
def retryFrom (attempt : Nat → Except String ApiResponse) :
    Nat → Nat → List Nat × Except PyErr ApiResponse
  | _, 0 => ([], .error (.retryError ""))
  | n, 1 =>
    match attempt n with
    | .ok r => ([], .ok r)
    | .error e => ([], .error (.retryError e))
  | n, fuel + 2 =>
    match attempt n with
    | .ok r => ([], .ok r)
    | .error _ =>
      let rest := retryFrom attempt (n + 1) (fuel + 1)
      (waitExp n :: rest.1, rest.2)

/-- fetch_events under its decorator
retry(stop=stop_after_attempt(3), wait=wait_exponential(min=2, max=10)):
up to 3 attempts starting at attempt 1. -/
def fetch_events (attempt : Nat → Except String ApiResponse) :
    List Nat × Except PyErr ApiResponse :=
  retryFrom attempt 1 3

/-- The per-page fetch as the run loop sees it: each page's retry-wrapped
outcome, given the page-indexed attempt oracle. -/
def fetchOf (pageAttempt : Nat → Nat → Except String ApiResponse) :
    Nat → Except PyErr ApiResponse :=
  fun page => (fetch_events (pageAttempt page)).2

/-- Whether a fetch outcome is the spec's SourceUnavailableError. -/
def isSourceUnavailable : Except PyErr ApiResponse → Bool
  | .error (.sourceUnavailable _) => true
  | _ => false

/- ── Pipeline orchestrator (run_pipeline.main) ────────────────────────── -/

/-- The five mandatory pipeline stages, in the orchestrator's fixed order. -/
inductive Stage where
  | transform
  | load_facts
  | quality_checks
  | create_reporting_views
  | summary
deriving DecidableEq, Fintype

/-- The fixed stage sequence of main's try block: step_transform,
step_load_facts, step_quality_checks, step_create_kpi_views,
print_pipeline_summary. -/
def stageOrder : List Stage :=
  [.transform, .load_facts, .quality_checks, .create_reporting_views, .summary]

/-- The try-block semantics over a stage list: stages run in order; the
first stage that raises ends the run (its raising execution is recorded and
reported), with no compensating action; otherwise all stages run.  fails
tells which stages raise. -/
def runStages : List Stage → (Stage → Bool) → List Stage × Option Stage
  | [], _ => ([], none)
  | s :: rest, fails =>
    if fails s then ([s], some s)
    else
      let r := runStages rest fails
      (s :: r.1, r.2)

/-- The stages main actually entered for a given failure pattern. -/
def pipelineExecuted (fails : Stage → Bool) : List Stage :=
  (runStages stageOrder fails).1

/-- The stage whose error aborted the run, if any. -/
def pipelineError (fails : Stage → Bool) : Option Stage :=
  (runStages stageOrder fails).2

/- ── Pipeline summary (print_pipeline_summary) ────────────────────────── -/

/-- The labels of the seven fixed read-only aggregate queries, in the
dictionary's iteration order. -/
def summaryQueries : List String :=
  ["Total raw events", "Unprocessed raw events", "Fact events loaded",
   "Unique venues", "Unique categories", "Quality checks run",
   "Failed quality checks"]

/-- What the summary reports for one query: its value, or the warning line
carrying the caught error. -/
inductive SummaryOutcome where
  | value (n : Nat)
  | errorReported (msg : String)
deriving DecidableEq

/-- The per-query try/except: a query result is reported as its value and a
query error is caught and reported inline. -/
def reportOf (res : Except String Nat) : SummaryOutcome :=
  match res with
  | .ok n => .value n
  | .error e => .errorReported e

/-- print_pipeline_summary: issue each of the fixed queries in order against
the store (qres gives each query's outcome) and report each one.  It is a
total function: a failing query never aborts the remaining ones. -/
def print_pipeline_summary (qres : String → Except String Nat) :
    List (String × SummaryOutcome) :=
  summaryQueries.map fun label => (label, reportOf (qres label))

/- ── Concrete inputs used by witnesses and counterexamples ────────────── -/

/-- A record with every JSON key absent. -/
def emptyEvent : TMEvent :=
  { id := none, name := none, url := none, embedded := none,
    classifications := none, priceRanges := none, dates := none }

/-- A small event carrying only an id and a name. -/
def evW : TMEvent :=
  { id := some "E1", name := some "Gig", url := none, embedded := none,
    classifications := none, priceRanges := none, dates := none }

/-- A response page holding one event and reporting five total pages. -/
def respW : ApiResponse :=
  { embedded := some { events := some [evW] }, page := some { totalPages := some 5 } }

/-- A fetch oracle whose page 0 succeeds and whose page 1 raises. -/
def fetchW : Nat → Except PyErr ApiResponse :=
  fun p => if p = 0 then .ok respW else .error (.retryError "boom")

/-- The database state an ingestion outcome carries. -/
def errDBOf (res : List Nat × Except (PyErr × DB) (Nat × DB)) : DB :=
  match res.2 with
  | .error (_, d) => d
  | .ok (_, d) => d

/-- The database state left by the failing two-page run over fetchW. -/
def dbW : DB := errDBOf (tmRun fetchW 2 "r1" 5 ⟨[], []⟩)

/-- A CSV row whose event_id cell is present but null. -/
def rowNullId : CsvRow := [("event_id", none), ("event_name", some "X")]

/-- A staging row used by the idempotence witness. -/
def rowA : StagingRow := csvBuildRow [("event_id", some "E7")]

/-- An attempt oracle all of whose attempts fail. -/
def attemptW : Nat → Except String ApiResponse :=
  fun n => if n = 1 then .error "e1" else if n = 2 then .error "e2" else .error "e3"

/-- A page-indexed attempt oracle: every page uses attemptW. -/
def pageAttemptW : Nat → Nat → Except String ApiResponse :=
  fun _ => attemptW

/-- A failure pattern where only the fact-load stage raises. -/
def failsW : Stage → Bool :=
  fun s => decide (s = Stage.load_facts)

/-- The database state a CSV ingestion outcome carries. -/
def csvDBOf (res : Except (String × DB) (Nat × DB)) : DB :=
  match res with
  | .error (_, d) => d
  | .ok (_, d) => d

/- ══ Theorems ═════════════════════════════════════════════════════════── -/

/- ── Staging store lemmas ─────────────────────────────────────────────── -/

theorem keyPresent_iff {store : List StagingRow} {r : StagingRow} :
    keyPresent store r = true ↔ ∃ t ∈ store, rowKey t = rowKey r := by
  simp [keyPresent]

theorem subset_insertOrSkip (store : List StagingRow) (r : StagingRow) :
    store ⊆ insertOrSkip store r := by
  unfold insertOrSkip
  split
  · exact fun _ h => h
  · exact List.subset_append_left store [r]

theorem subset_bulkInsert (rows : List StagingRow) :
    ∀ store : List StagingRow, store ⊆ bulkInsert store rows := by
  induction rows with
  | nil => intro store; exact fun _ h => h
  | cons a rows ih =>
    intro store
    exact (subset_insertOrSkip store a).trans (ih (insertOrSkip store a))

theorem keyPresent_mono {store store2 : List StagingRow} {r : StagingRow}
    (hsub : store ⊆ store2) (h : keyPresent store r = true) :
    keyPresent store2 r = true := by
  rcases keyPresent_iff.1 h with ⟨t, ht, hk⟩
  exact keyPresent_iff.2 ⟨t, hsub ht, hk⟩

theorem keyPresent_insertOrSkip_self (store : List StagingRow) (r : StagingRow) :
    keyPresent (insertOrSkip store r) r = true := by
  unfold insertOrSkip
  split
  · assumption
  · exact keyPresent_iff.2 ⟨r, by simp, rfl⟩

theorem keyPresent_bulkInsert_of_mem {rows : List StagingRow} {r : StagingRow}
    (hr : r ∈ rows) : ∀ store, keyPresent (bulkInsert store rows) r = true := by
  induction rows with
  | nil => cases hr
  | cons a rows ih =>
    intro store
    rcases List.mem_cons.1 hr with rfl | h
    · exact keyPresent_mono (subset_bulkInsert rows (insertOrSkip store r))
        (keyPresent_insertOrSkip_self store r)
    · exact ih h (insertOrSkip store a)

theorem insertOrSkip_of_present {store : List StagingRow} {r : StagingRow}
    (h : keyPresent store r = true) : insertOrSkip store r = store := by
  unfold insertOrSkip
  simp [h]

theorem bulkInsert_of_all_present {rows : List StagingRow} :
    ∀ {store : List StagingRow}, (∀ r ∈ rows, keyPresent store r = true) →
      bulkInsert store rows = store := by
  induction rows with
  | nil => intro store _; rfl
  | cons a rows ih =>
    intro store h
    have ha : insertOrSkip store a = store := insertOrSkip_of_present (h a (by simp))
    show bulkInsert (insertOrSkip store a) rows = store
    rw [ha]
    exact ih fun r hr => h r (by simp [hr])

theorem bulkInsert_idem (store rows : List StagingRow) :
    bulkInsert (bulkInsert store rows) rows = bulkInsert store rows :=
  bulkInsert_of_all_present fun _ hr => keyPresent_bulkInsert_of_mem hr store

theorem noDupKeys_insertOrSkip {store : List StagingRow} (h : NoDupKeys store)
    (r : StagingRow) : NoDupKeys (insertOrSkip store r) := by
  unfold insertOrSkip
  split
  · exact h
  · rename_i hnp
    unfold NoDupKeys at h ⊢
    rw [List.map_append]
    simp only [List.map_cons, List.map_nil]
    rw [List.nodup_append]
    refine ⟨h, List.nodup_singleton _, ?_⟩
    intro k hk hk1
    rcases List.mem_map.1 hk with ⟨t, ht, rfl⟩
    rcases List.mem_singleton.1 hk1 with h2
    exact hnp (keyPresent_iff.2 ⟨t, ht, h2⟩)

theorem noDupKeys_bulkInsert {store : List StagingRow} (h : NoDupKeys store)
    (rows : List StagingRow) : NoDupKeys (bulkInsert store rows) := by
  induction rows generalizing store with
  | nil => exact h
  | cons a rows ih => exact ih (noDupKeys_insertOrSkip h a)

theorem noDupKeys_foldl {store : List StagingRow} (h : NoDupKeys store)
    (runs : List (List StagingRow)) : NoDupKeys (runs.foldl bulkInsert store) := by
  induction runs generalizing store with
  | nil => exact h
  | cons rows runs ih => exact ih (noDupKeys_bulkInsert h rows)

/- ── C1: idempotent ingestion and unique canonical id pairs ───────────── -/

/-- C1.  Ingestion is idempotent with respect to the staging store: bulk
upserting the same batch twice leaves the store exactly as one upsert does
(hence with the same row count); re-running the same CSV ingestion a second
time leaves the staging store unchanged; and starting from a store whose
canonical id pairs are unique, any number of further ingestion runs keeps
every (source, source-native id) pair in at most one staging row. -/
theorem ingest_idempotent_unique_keys (store rows : List StagingRow)
    (runs : List (List StagingRow)) (h : NoDupKeys store) :
    bulkInsert (bulkInsert store rows) rows = bulkInsert store rows ∧
    NoDupKeys (runs.foldl bulkInsert store) ∧
    (∀ rs runId1 now1 runId2 now2 db n1 db1,
      csvRun (.ok rs) runId1 now1 db = .ok (n1, db1) →
      ∃ db2, csvRun (.ok rs) runId2 now2 db1 = .ok (n1, db2) ∧
        db2.store = db1.store) := by
  refine ⟨bulkInsert_idem store rows, noDupKeys_foldl h runs, ?_⟩
  intro rs runId1 now1 runId2 now2 db n1 db1 h1
  simp only [csvRun] at h1
  obtain ⟨hn, hdb⟩ : (rs.map csvBuildRow).length = n1 ∧
      ({ store := bulkInsert db.store (rs.map csvBuildRow),
         log := db.log ++ [csvSuccessLog runId1 (rs.map csvBuildRow).length now1] } : DB)
        = db1 := by
    injection h1 with h2
    injection h2 with ha hb
    exact ⟨ha, hb⟩
  subst hdb
  subst hn
  exact ⟨_, rfl, by simp [bulkInsert_idem]⟩

/-- Witness for C1 at a concrete store, batch and run list. -/
theorem ingest_idempotent_unique_keys_witness :
    bulkInsert (bulkInsert [] [rowA]) [rowA] = bulkInsert [] [rowA] ∧
    NoDupKeys ([[rowA], [rowA]].foldl bulkInsert []) ∧
    (∀ rs runId1 now1 runId2 now2 db n1 db1,
      csvRun (.ok rs) runId1 now1 db = .ok (n1, db1) →
      ∃ db2, csvRun (.ok rs) runId2 now2 db1 = .ok (n1, db2) ∧
        db2.store = db1.store) :=
  ingest_idempotent_unique_keys [] [rowA] [[rowA], [rowA]] (by decide)

/- ── C2: orchestrator stage sequencing ────────────────────────────────── -/

/-- C2.  For every failure pattern, the orchestrator enters the mandatory
stages transform, load_facts, quality_checks, create_reporting_views,
summary as an initial segment of that fixed order; when no stage raises all
five run; once a stage raises, it is the last stage entered and nothing
runs after it; and each later stage runs exactly when its predecessor ran
and completed without raising. -/
theorem orchestrator_fail_fast : ∀ fails : Stage → Bool,
    stageOrder.take (pipelineExecuted fails).length = pipelineExecuted fails ∧
    (pipelineError fails = none → pipelineExecuted fails = stageOrder) ∧
    (∀ s : Stage, pipelineError fails = some s →
      fails s = true ∧
      pipelineExecuted fails = stageOrder.take (stageOrder.indexOf s + 1)) ∧
    (∀ i : Fin 4,
      stageOrder.getD (i.1 + 1) .summary ∈ pipelineExecuted fails ↔
        (stageOrder.getD i.1 .summary ∈ pipelineExecuted fails ∧
         fails (stageOrder.getD i.1 .summary) = false)) := by
  decide

/-- Witness for C2 at the failure pattern where load_facts raises: the run
stops right after load_facts. -/
theorem orchestrator_fail_fast_witness :
    failsW Stage.load_facts = true ∧
    pipelineExecuted failsW =
      stageOrder.take (stageOrder.indexOf Stage.load_facts + 1) :=
  (orchestrator_fail_fast failsW).2.2.1 Stage.load_facts (by decide)

/- ── C9: best-effort summary queries ──────────────────────────────────── -/

/-- C9.  When the summary stage is reached it attempts every one of its
seven fixed read-only queries, in their fixed order, whatever each query's
outcome: the reported labels are exactly the query list, and each query's
line reports its own value or its own caught error inline.  The stage is a
total function of the query outcomes, so no single query failure aborts the
remaining queries or the stage. -/
theorem summary_queries_best_effort (qres : String → Except String Nat) :
    (print_pipeline_summary qres).map Prod.fst = summaryQueries ∧
    (print_pipeline_summary qres).length = summaryQueries.length ∧
    (∀ q ∈ summaryQueries, (q, reportOf (qres q)) ∈ print_pipeline_summary qres) := by
  refine ⟨?_, ?_, ?_⟩
  · simp only [print_pipeline_summary, List.map_map]
    exact List.map_id summaryQueries
  · simp [print_pipeline_summary]
  · intro q hq
    simp only [print_pipeline_summary, List.mem_map]
    exact ⟨q, hq, rfl⟩

/-- Witness for C9 with an oracle whose every query raises: the first query
is still reported, inline, as its caught error. -/
theorem summary_queries_best_effort_witness :
    ("Total raw events",
      reportOf ((fun _ => Except.error "no table") "Total raw events")) ∈
      print_pipeline_summary (fun _ => Except.error "no table") :=
  (summary_queries_best_effort (fun _ => Except.error "no table")).2.2
    "Total raw events" (by decide)

/- ── C10: CSV per-row cell semantics ──────────────────────────────────── -/

/-- C10.  The file-based ingestor builds a staging row from every input CSV
row with no per-row validation: an absent event_id column makes the dedup
key the empty string; a present-but-null cell of event_id, event_date,
event_time, price_min or price_max is stored as the literal string None
(so all rows with a null event id share the dedup key None); a null cell of
the remaining columns is stored as a null; and a run over any row list
succeeds, attempting one built row per input row. -/
theorem csv_row_semantics (row : CsvRow) :
    (List.lookup "event_id" row = none → (csvBuildRow row).raw_event_id = some "") ∧
    (List.lookup "event_id" row = some none →
      (csvBuildRow row).raw_event_id = some "None") ∧
    (List.lookup "event_date" row = some none →
      (csvBuildRow row).event_date = some "None") ∧
    (List.lookup "event_time" row = some none →
      (csvBuildRow row).event_time = some "None") ∧
    (List.lookup "price_min" row = some none →
      (csvBuildRow row).price_min = some "None") ∧
    (List.lookup "price_max" row = some none →
      (csvBuildRow row).price_max = some "None") ∧
    (List.lookup "event_name" row = some none →
      (csvBuildRow row).event_name = none) ∧
    (List.lookup "venue_city" row = some none →
      (csvBuildRow row).venue_city = none) ∧
    (List.lookup "status" row = some none →
      (csvBuildRow row).status = none) ∧
    (∀ row2 : CsvRow, List.lookup "event_id" row = some none →
      List.lookup "event_id" row2 = some none →
      rowKey (csvBuildRow row) = rowKey (csvBuildRow row2)) ∧
    (∀ rs runId now db, csvRun (.ok rs) runId now db =
      .ok (rs.length,
        { store := bulkInsert db.store (rs.map csvBuildRow)
          log := db.log ++ [csvSuccessLog runId rs.length now] })) := by
  refine ⟨?_, ?_, ?_, ?_, ?_, ?_, ?_, ?_, ?_, ?_, ?_⟩
  · intro h; simp [csvBuildRow, getStrField, h]
  · intro h; simp [csvBuildRow, getStrField, h]
  · intro h; simp [csvBuildRow, getStrField, h]
  · intro h; simp [csvBuildRow, getStrField, h]
  · intro h; simp [csvBuildRow, getStrField, h]
  · intro h; simp [csvBuildRow, getStrField, h]
  · intro h; simp [csvBuildRow, rowGet, h]
  · intro h; simp [csvBuildRow, rowGet, h]
  · intro h; simp [csvBuildRow, rowGet, h]
  · intro row2 h1 h2
    simp [rowKey, csvBuildRow, getStrField, h1, h2]
  · intro rs runId now db
    simp [csvRun]

/-- Witness for C10: the null-id and absent-id cases at concrete rows. -/
theorem csv_row_semantics_witness :
    (csvBuildRow rowNullId).raw_event_id = some "None" ∧
    (csvBuildRow ([] : CsvRow)).raw_event_id = some "" :=
  ⟨(csv_row_semantics rowNullId).2.1 (by decide),
   (csv_row_semantics ([] : CsvRow)).1 (by decide)⟩

/- ── C8: fixed source identifiers ─────────────────────────────────────── -/

/-- C8 counterexample.  The claim says staging rows are tagged from the
enum with values file and api; on the code, a CSV-built row is tagged csv,
not file, and an API-parsed row is tagged ticketmaster, not api. -/
theorem source_tags_counterexample :
    (csvBuildRow ([] : CsvRow)).source = "csv" ∧
    (csvBuildRow ([] : CsvRow)).source ≠ "file" ∧
    (parse_event emptyEvent).source = "ticketmaster" ∧
    (parse_event emptyEvent).source ≠ "api" := by
  refine ⟨rfl, ?_, rfl, ?_⟩ <;> decide

/-- C8 as amended.  Every row built by the file-based ingestor carries the
fixed source identifier csv, every row parsed by the API-based ingestor
carries the fixed source identifier ticketmaster, and the two identifiers
are distinct, so the canonical id pair still separates the two sources. -/
theorem source_tags_fixed (row : CsvRow) (event : TMEvent) :
    (csvBuildRow row).source = "csv" ∧
    (parse_event event).source = "ticketmaster" ∧
    ("csv" : String) ≠ "ticketmaster" := by
  refine ⟨rfl, rfl, ?_⟩
  decide

/- ── C6: the row normalizer is total and substitutes nulls ────────────── -/

/-- C6 counterexample.  The claim makes the source-native event id and the
event name load-bearing, a record missing them failing with a
MalformedRecordError; on the code, parse_event applied to a record with
every key absent still returns a staging row, with a null id and a null
name, and no MalformedRecordError exists anywhere in the source tree. -/
theorem normalizer_counterexample :
    (parse_event emptyEvent).raw_event_id = none ∧
    (parse_event emptyEvent).event_name = none ∧
    (parse_event emptyEvent).source = "ticketmaster" := by
  refine ⟨rfl, rfl, rfl⟩

/-- C6 as amended.  The normalizer is total: every source-native record
yields exactly one Canonical Staging Row, never an error; a record lacking
the optional nested structures (venue, classification, price, dates
sub-objects) is normalized with nulls substituted for all the absent
fields, the id, name and url passing through unchanged, absent prices
degrading to empty strings; no field, not even the source-native event id
or the event name, is load-bearing. -/
theorem normalizer_total_null_substitution (event : TMEvent)
    (hemb : event.embedded = none) (hcls : event.classifications = none)
    (hpr : event.priceRanges = none) (hdates : event.dates = none) :
    parse_event event =
      { source := "ticketmaster"
        raw_event_id := event.id
        raw_payload := some event
        event_name := event.name
        event_date := none
        event_time := none
        venue_name := none
        venue_city := none
        venue_country := none
        venue_lat := none
        venue_lon := none
        category := none
        subcategory := none
        price_min := some ""
        price_max := some ""
        currency := none
        url := event.url
        status := none } := by
  simp [parse_event, hemb, hcls, hpr, hdates, firstOrEmpty, emptyVenue,
    emptyClassification, emptyPriceRange]

/-- Witness for C6 as amended, at the record with every key absent. -/
theorem normalizer_total_null_substitution_witness :
    parse_event emptyEvent =
      { source := "ticketmaster"
        raw_event_id := none
        raw_payload := some emptyEvent
        event_name := none
        event_date := none
        event_time := none
        venue_name := none
        venue_city := none
        venue_country := none
        venue_lat := none
        venue_lon := none
        category := none
        subcategory := none
        price_min := some ""
        price_max := some ""
        currency := none
        url := none
        status := none } :=
  normalizer_total_null_substitution emptyEvent rfl rfl rfl rfl

/- ── C5: the file-based ingestor's run record ─────────────────────────── -/

/-- C5 counterexample.  The claim says a file that cannot be opened or
parsed fails with SourceUnavailableError and a failed Run Record is written
before the error propagates; on the code, CsvIngestor.run wraps nothing in
try/except, so the raw read error propagates unchanged, no run-log row of
any status is written, and no SourceUnavailableError class exists anywhere
in the source tree. -/
theorem csv_run_failure_counterexample :
    csvRun (.error "FileNotFoundError: sample_events.csv") "r1" 3 ⟨[], []⟩ =
      .error ("FileNotFoundError: sample_events.csv", ⟨[], []⟩) ∧
    (csvDBOf (csvRun (.error "FileNotFoundError: sample_events.csv") "r1" 3
      ⟨[], []⟩)).log.length = 0 := by
  exact ⟨rfl, rfl⟩

/-- C5 as amended.  On success the run writes exactly one terminal Run
Record, reporting fetched count and loaded count both equal to the input
row count, and returns that count (rows skipped as duplicates are not
distinguished); when the file cannot be opened or parsed, the underlying
read error propagates unchanged to the caller and no Run Record at all,
failed or otherwise, is written, the database being left untouched. -/
theorem csv_run_record (readResult : Except String (List CsvRow)) (runId : String)
    (now : Nat) (db : DB) :
    (∀ e, readResult = .error e → csvRun readResult runId now db = .error (e, db)) ∧
    (∀ rs, readResult = .ok rs →
      csvRun readResult runId now db =
        .ok (rs.length,
          { store := bulkInsert db.store (rs.map csvBuildRow)
            log := db.log ++ [csvSuccessLog runId rs.length now] })) := by
  constructor
  · intro e he
    subst he
    rfl
  · intro rs hok
    subst hok
    simp [csvRun]

/-- Witness for C5 as amended: a concrete successful one-row run writes the
single success record counting that row as fetched and loaded. -/
theorem csv_run_record_witness :
    csvRun (.ok [rowNullId]) "r2" 4 ⟨[], []⟩ =
      .ok (([rowNullId] : List CsvRow).length,
        { store := bulkInsert ([] : List StagingRow) ([rowNullId].map csvBuildRow)
          log := ([] : List LogRecord) ++ [csvSuccessLog "r2" ([rowNullId] : List CsvRow).length 4] }) :=
  (csv_run_record (.ok [rowNullId]) "r2" 4 ⟨[], []⟩).2 [rowNullId] rfl

/- ── Page-loop lemmas ─────────────────────────────────────────────────── -/

theorem tmPages_requests (fetch : Nat → Except PyErr ApiResponse) :
    ∀ remaining page total store,
      ∃ k, k ≤ remaining ∧
        (tmPages fetch page remaining total store).1 = List.range' page k ∧
        (1 ≤ remaining → 1 ≤ k) ∧
        ∀ p, page ≤ p → p + 1 ∈ List.range' page k →
          continuesAfter (fetch p) p = true := by
  intro remaining
  induction remaining with
  | zero =>
    intro page total store
    refine ⟨0, le_rfl, rfl, by omega, ?_⟩
    intro p hp hmem
    rw [List.mem_range'_1] at hmem
    omega
  | succ r ih =>
    intro page total store
    simp only [tmPages]
    cases hf : fetch page with
    | error e =>
      refine ⟨1, by omega, rfl, fun _ => le_rfl, ?_⟩
      intro p hp hmem
      rw [List.mem_range'_1] at hmem
      omega
    | ok data =>
      by_cases he : (pageEvents data).isEmpty
      · simp only [he, if_true]
        refine ⟨1, by omega, rfl, fun _ => le_rfl, ?_⟩
        intro p hp hmem
        rw [List.mem_range'_1] at hmem
        omega
      · simp only [he, if_false]
        by_cases hlast : (page : Int) ≥ pageTotalPages data - 1
        · rw [if_pos hlast]
          refine ⟨1, by omega, rfl, fun _ => le_rfl, ?_⟩
          intro p hp hmem
          rw [List.mem_range'_1] at hmem
          omega
        · rw [if_neg hlast]
          obtain ⟨k, hk, hreqs, _, hcont⟩ :=
            ih (page + 1) (total + (List.map parse_event (pageEvents data)).length)
              (bulkInsert store (List.map parse_event (pageEvents data)))
          refine ⟨k + 1, by omega, ?_, fun _ => by omega, ?_⟩
          · show page :: (tmPages fetch (page + 1) r _ _).1 = List.range' page (k + 1)
            rw [hreqs, List.range'_succ]
          · intro p hp hmem
            rw [List.range'_succ] at hmem
            rcases List.mem_cons.1 hmem with h1 | h1
            · omega
            · rcases Nat.eq_or_lt_of_le hp with rfl | hlt
              · simp only [continuesAfter, hf, Bool.and_eq_true, Bool.not_eq_true',
                  decide_eq_true_eq]
                refine ⟨by simpa using he, by omega⟩
              · exact hcont p (by omega) h1

theorem tmPages_error_spec (fetch : Nat → Except PyErr ApiResponse) :
    ∀ remaining page total store e store2,
      (tmPages fetch page remaining total store).2 = .error (e, store2) →
      store ⊆ store2 ∧
      ∃ p, page ≤ p ∧ p < page + remaining ∧ fetch p = .error e ∧
        ∀ q, page ≤ q → q < p → ∀ ev ∈ eventsOf (fetch q),
          keyPresent store2 (parse_event ev) = true := by
  intro remaining
  induction remaining with
  | zero =>
    intro page total store e store2 h
    exact absurd h (by simp [tmPages])
  | succ r ih =>
    intro page total store e store2 h
    simp only [tmPages] at h
    split at h
    · rename_i e1 heq
      obtain ⟨he, hst⟩ : e1 = e ∧ store = store2 := by
        injection h with h2
        injection h2 with ha hb
        exact ⟨ha, hb⟩
      subst he
      subst hst
      refine ⟨fun a ha => ha, page, le_rfl, by omega, heq, ?_⟩
      intro q hq1 hq2
      omega
    · rename_i data heq
      by_cases hemp : (pageEvents data).isEmpty
      · rw [if_pos hemp] at h
        cases h
      · rw [if_neg hemp] at h
        by_cases hlast : (page : Int) ≥ pageTotalPages data - 1
        · rw [if_pos hlast] at h
          cases h
        · rw [if_neg hlast] at h
          obtain ⟨hsub, p, hp1, hp2, hpf, hq⟩ :=
            ih (page + 1) (total + (List.map parse_event (pageEvents data)).length)
              (bulkInsert store (List.map parse_event (pageEvents data))) e store2 h
          refine ⟨(subset_bulkInsert _ store).trans hsub, p, by omega, by omega, hpf, ?_⟩
          intro q hq1 hq2 ev hev
          rcases Nat.eq_or_lt_of_le hq1 with rfl | hlt
          · have hin : parse_event ev ∈ List.map parse_event (pageEvents data) := by
              rw [heq] at hev
              exact List.mem_map_of_mem parse_event (by simpa [eventsOf] using hev)
            exact keyPresent_mono hsub (keyPresent_bulkInsert_of_mem hin store)
          · exact hq q (by omega) hq2 ev hev

/- ── C4: sequential bounded pagination with early stop ────────────────── -/

/-- C4.  For every fetch oracle (hence every region code) and every
maxPages at least 1, the run requests page indices forming exactly the
ascending sequence 0, 1, ..., n-1 for some n between 1 and maxPages, and a
page index p+1 is requested only when page p's fetch succeeded, returned at
least one record, and p is below the server-reported last page. -/
theorem api_pagination_bounded (fetch : Nat → Except PyErr ApiResponse)
    (maxPages : Nat) (runId : String) (now : Nat) (db : DB) (h : 1 ≤ maxPages) :
    ∃ n, (tmRun fetch maxPages runId now db).1 = List.range n ∧
      1 ≤ n ∧ n ≤ maxPages ∧
      ∀ p, p + 1 ∈ List.range n → continuesAfter (fetch p) p = true := by
  have h1 : (tmRun fetch maxPages runId now db).1 =
      (tmPages fetch 0 maxPages 0 db.store).1 := by
    simp only [tmRun]
    split <;> rfl
  obtain ⟨k, hk, hreqs, hpos, hcont⟩ := tmPages_requests fetch maxPages 0 0 db.store
  refine ⟨k, ?_, hpos h, hk, ?_⟩
  · rw [h1, hreqs, List.range_eq_range']
  · intro p hmem
    rw [List.range_eq_range'] at hmem
    exact hcont p (Nat.zero_le p) hmem

/-- Witness for C4 at a concrete fetch whose page 0 raises, with
maxPages 2: exactly page 0 is requested. -/
theorem api_pagination_bounded_witness :
    ∃ n, (tmRun (fun _ => .error (.retryError "down")) 2 "r3" 0 ⟨[], []⟩).1 =
        List.range n ∧
      1 ≤ n ∧ n ≤ 2 ∧
      ∀ p, p + 1 ∈ List.range n →
        continuesAfter ((fun _ => (.error (.retryError "down") :
          Except PyErr ApiResponse)) p) p = true :=
  api_pagination_bounded (fun _ => .error (.retryError "down")) 2 "r3" 0 ⟨[], []⟩
    (by omega)

/- ── C3: failed API runs finalize the run record and keep prior pages ─── -/

/-- C3.  Whenever an API ingestion run raises, the run-log row it created
is finalized to status failed with a non-null error message (the raised
error's text) and a finish timestamp; the raised error is exactly the error
some page's fetch raised, re-raised unchanged to the caller; every record
of every earlier successfully loaded page is present, by its canonical id
pair, in the staging store the run leaves behind; and nothing that was in
the staging store before the run is rolled back. -/
theorem api_run_failure_finalizes (fetch : Nat → Except PyErr ApiResponse)
    (maxPages : Nat) (runId : String) (now : Nat) (db : DB) (e : PyErr) (db2 : DB)
    (h : (tmRun fetch maxPages runId now db).2 = .error (e, db2)) :
    (∃ rec, rec ∈ db2.log ∧ rec.run_id = runId ∧ rec.status = "failed" ∧
      rec.error_message = some (pyErrStr e) ∧ rec.finished_at = some now) ∧
    (∃ p, p < maxPages ∧ fetch p = .error e ∧
      ∀ q, q < p → ∀ ev ∈ eventsOf (fetch q),
        keyPresent db2.store (parse_event ev) = true) ∧
    db.store ⊆ db2.store := by
  simp only [tmRun] at h
  split at h
  · simp at h
  · rename_i e1 store2 heq
    injection h with h2
    injection h2 with ha hb
    obtain rfl : e = e1 := ha.symm
    subst hb
    obtain ⟨hsub, p, _, hplt, hpf, hq⟩ :=
      tmPages_error_spec fetch maxPages 0 0 db.store e store2 heq
    refine ⟨⟨{ startLog runId with
        finished_at := some now,
        status := "failed",
        error_message := some (pyErrStr e) }, ?_, rfl, rfl, rfl, rfl⟩,
      ⟨p, by omega, hpf, ?_⟩, hsub⟩
    · unfold updateLog
      refine List.mem_map.2 ⟨startLog runId, by simp, ?_⟩
      simp [startLog]
    · intro q hqlt ev hev
      exact hq q (Nat.zero_le q) hqlt ev hev

/-- Witness for C3 at a concrete two-page run whose second page raises:
page 0's single event stays in the store and the run record is failed. -/
theorem api_run_failure_finalizes_witness :
    (∃ rec, rec ∈ dbW.log ∧ rec.run_id = "r1" ∧ rec.status = "failed" ∧
      rec.error_message = some (pyErrStr (.retryError "boom")) ∧
      rec.finished_at = some 5) ∧
    (∃ p, p < 2 ∧ fetchW p = .error (.retryError "boom") ∧
      ∀ q, q < p → ∀ ev ∈ eventsOf (fetchW q),
        keyPresent dbW.store (parse_event ev) = true) ∧
    (⟨[], []⟩ : DB).store ⊆ dbW.store :=
  api_run_failure_finalizes fetchW 2 "r1" 5 ⟨[], []⟩ (.retryError "boom") dbW rfl

/- ── C7: per-page retry with backoff ──────────────────────────────────── -/

theorem retryFrom_one (attempt : Nat → Except String ApiResponse) (n : Nat)
    (e : String) (h : attempt n = .error e) :
    retryFrom attempt n 1 = ([], .error (.retryError e)) := by
  simp only [retryFrom, h]

theorem retryFrom_two_plus (attempt : Nat → Except String ApiResponse)
    (n fuel : Nat) (e : String) (h : attempt n = .error e) :
    retryFrom attempt n (fuel + 2) =
      (waitExp n :: (retryFrom attempt (n + 1) (fuel + 1)).1,
       (retryFrom attempt (n + 1) (fuel + 1)).2) := by
  simp only [retryFrom, h]

/-- C7 counterexample.  The claim says retry exhaustion raises
SourceUnavailableError; on the code, no SourceUnavailableError class exists
and exhausting the three attempts raises the retry framework's RetryError,
wrapping the last attempt's failure. -/
theorem retry_error_type_counterexample :
    (fetch_events fun _ => .error "HTTPError: 500").2 =
      .error (.retryError "HTTPError: 500") ∧
    isSourceUnavailable (fetch_events fun _ => .error "HTTPError: 500").2 = false :=
  ⟨rfl, rfl⟩

/-- C7 as amended.  Each per-page fetch makes up to 3 attempts; when all
three fail, the waits slept between attempts follow
wait_exponential(min=2, max=10), namely max(2, min(2 ^ (n - 1), 10)), here
2 then 2, every wait capped at 10 time-units; the fetch consults no attempt
beyond the third; exhaustion raises the retry framework's RetryError
wrapping the last attempt's error, not a SourceUnavailableError; and that
error aborts the surrounding run, which re-raises it. -/
theorem retry_exhaustion_wraps (attempt : Nat → Except String ApiResponse)
    (e1 e2 e3 : String)
    (h1 : attempt 1 = .error e1) (h2 : attempt 2 = .error e2)
    (h3 : attempt 3 = .error e3)
    (pageAttempt : Nat → Nat → Except String ApiResponse)
    (hpa : pageAttempt 0 = attempt) (maxPages : Nat) (hm : 1 ≤ maxPages)
    (runId : String) (now : Nat) (db : DB) :
    fetch_events attempt = ([waitExp 1, waitExp 2], .error (.retryError e3)) ∧
    waitExp 1 = 2 ∧ waitExp 2 = 2 ∧ (∀ n, waitExp n ≤ 10) ∧
    (∀ attempt2 : Nat → Except String ApiResponse,
      attempt2 1 = attempt 1 → attempt2 2 = attempt 2 → attempt2 3 = attempt 3 →
      fetch_events attempt2 = fetch_events attempt) ∧
    ∃ db2, (tmRun (fetchOf pageAttempt) maxPages runId now db).2 =
      .error (.retryError e3, db2) := by
  have r3 : retryFrom attempt 3 1 = ([], .error (.retryError e3)) :=
    retryFrom_one attempt 3 e3 h3
  have r2 : retryFrom attempt 2 2 =
      (waitExp 2 :: (retryFrom attempt 3 1).1, (retryFrom attempt 3 1).2) :=
    retryFrom_two_plus attempt 2 0 e2 h2
  have r1 : retryFrom attempt 1 3 =
      (waitExp 1 :: (retryFrom attempt 2 2).1, (retryFrom attempt 2 2).2) :=
    retryFrom_two_plus attempt 1 1 e1 h1
  have hfe : fetch_events attempt = ([waitExp 1, waitExp 2], .error (.retryError e3)) := by
    show retryFrom attempt 1 3 = _
    rw [r1, r2, r3]
  refine ⟨hfe, by decide, by decide, ?_, ?_, ?_⟩
  · intro n
    unfold waitExp
    exact Nat.max_le.2 ⟨by norm_num, Nat.min_le_right _ _⟩
  · intro a2 g1 g2 g3
    have q3 : retryFrom a2 3 1 = ([], .error (.retryError e3)) :=
      retryFrom_one a2 3 e3 (by rw [g3, h3])
    have q2 : retryFrom a2 2 2 =
        (waitExp 2 :: (retryFrom a2 3 1).1, (retryFrom a2 3 1).2) :=
      retryFrom_two_plus a2 2 0 e2 (by rw [g2, h2])
    have q1 : retryFrom a2 1 3 =
        (waitExp 1 :: (retryFrom a2 2 2).1, (retryFrom a2 2 2).2) :=
      retryFrom_two_plus a2 1 1 e1 (by rw [g1, h1])
    show retryFrom a2 1 3 = fetch_events attempt
    rw [q1, q2, q3, hfe]
  · obtain ⟨m, rfl⟩ : ∃ m, maxPages = m + 1 := ⟨maxPages - 1, by omega⟩
    have hf0 : fetchOf pageAttempt 0 = .error (.retryError e3) := by
      show (fetch_events (pageAttempt 0)).2 = _
      rw [hpa, hfe]
    refine ⟨{ store := db.store
              log := updateLog (db.log ++ [startLog runId]) runId fun rec =>
                { rec with
                  finished_at := some now,
                  status := "failed",
                  error_message := some (pyErrStr (.retryError e3)) } }, ?_⟩
    simp only [tmRun, tmPages, hf0]

/-- Witness for C7 as amended, at a concrete attempt oracle whose three
attempts all fail and a one-page run built on it. -/
theorem retry_exhaustion_wraps_witness :
    fetch_events attemptW = ([waitExp 1, waitExp 2], .error (.retryError "e3")) ∧
    waitExp 1 = 2 ∧ waitExp 2 = 2 ∧ (∀ n, waitExp n ≤ 10) ∧
    (∀ attempt2 : Nat → Except String ApiResponse,
      attempt2 1 = attemptW 1 → attempt2 2 = attemptW 2 → attempt2 3 = attemptW 3 →
      fetch_events attempt2 = fetch_events attemptW) ∧
    ∃ db2, (tmRun (fetchOf pageAttemptW) 1 "r4" 9 ⟨[], []⟩).2 =
      .error (.retryError "e3", db2) :=
  retry_exhaustion_wraps attemptW "e1" "e2" "e3" rfl rfl rfl pageAttemptW rfl 1
    (by omega) "r4" 9 ⟨[], []⟩
